import Mathlib

/-!
Verification of the buffered self-describing value component (`de/buffer.rs`).

The tagged-union data model (`Buffer`), the visitor-protocol builder
(`BufferVisitor`), the owned replay adapter (`BufferDeserializer`) and the
borrowing replay adapter (`BufferRefDeserializer`) are embedded as pure Lean
functions.  The pull-style decoder protocol is modelled in
continuation-passing style: a `Visitor` is a structure of callbacks, one per
shape of the protocol, and each `deserialize_*` method becomes a function
from a buffer and a visitor to `Except Error`.

Modelling conventions:
* `f32`/`f64` payloads are opaque scalars (`Nat`, the bit pattern); the code
  never transforms a float on any replay path, and the `f32 -> f64` widening
  in error classification is value-preserving, modelled as the identity on
  the opaque scalar.
* unsigned integer payloads are `Nat`, signed payloads are `Int`; the
  `as u64` / `as i64` widenings in error classification are value-preserving
  and modelled as the identity.
* byte slices and byte buffers are `List Nat`.
* a callback that receives a nested deserializer in the source receives the
  underlying buffer value here (the callback may apply any adapter function
  to it, exactly as the source visitor may call any method of the nested
  deserializer).
* a sequence (map) access handed to `visit_seq` (`visit_map`) is modelled by
  state passing over the list of remaining elements (entries): the callback
  returns its result together with the elements it did not drain.
-/

/-- The `de::Unexpected` classification carried by type/value errors. -/
inductive Unexpected where
  | bool (b : Bool)
  | unsigned (n : Nat)
  | signed (n : Int)
  | float (bits : Nat)
  | char (c : Char)
  | str (s : String)
  | bytes (bs : List Nat)
  | option
  | unit
  | newtypeStruct
  | seq
  | map
  | other (s : String)
deriving DecidableEq, Repr

/-- The error kinds produced by this component (`de::Error` constructors used
in `buffer.rs`). -/
inductive Error where
  | invalidType (unexp : Unexpected) (exp : String)
  | invalidValue (unexp : Unexpected) (exp : String)
  | invalidLength (len : Nat) (exp : String)
  | custom (msg : String)
deriving DecidableEq, Repr

/-- The buffered value model: `BufferInner` from the source (the `Buffer`
newtype wrapper around it is the identity and is elided). -/
inductive Buffer where
  | bool (b : Bool)
  | u8 (n : Nat)
  | u16 (n : Nat)
  | u32 (n : Nat)
  | u64 (n : Nat)
  | u128 (n : Nat)
  | i8 (n : Int)
  | i16 (n : Int)
  | i32 (n : Int)
  | i64 (n : Int)
  | i128 (n : Int)
  | f32 (bits : Nat)
  | f64 (bits : Nat)
  | char (c : Char)
  | string (s : String)
  | str (s : String)
  | byteBuf (bs : List Nat)
  | bytes (bs : List Nat)
  | none
  | some (inner : Buffer)
  | unit
  | newtype (inner : Buffer)
  | seq (elems : List Buffer)
  | map (entries : List (Buffer × Buffer))

/-- `BufferInner::unexpected`: classification of each case for error
reporting. -/
def Buffer.unexpected : Buffer → Unexpected
  | .bool b => .bool b
  | .u8 n => .unsigned n
  | .u16 n => .unsigned n
  | .u32 n => .unsigned n
  | .u64 n => .unsigned n
  | .i8 n => .signed n
  | .i16 n => .signed n
  | .i32 n => .signed n
  | .i64 n => .signed n
  | .f32 b => .float b
  | .f64 b => .float b
  | .char c => .char c
  | .string s => .str s
  | .str s => .str s
  | .byteBuf bs => .bytes bs
  | .bytes bs => .bytes bs
  | .none => .option
  | .some _ => .option
  | .unit => .unit
  | .newtype _ => .newtypeStruct
  | .seq _ => .seq
  | .map _ => .map
  | .u128 _ => .other "128-bit integer"
  | .i128 _ => .other "128-bit integer"

/-- A pull-protocol visitor in continuation-passing form: one callback per
shape, plus the `expecting` description used by `invalid_type` errors. -/
structure Visitor (α : Type) where
  expecting : String
  visitBool : Bool → Except Error α
  visitI8 : Int → Except Error α
  visitI16 : Int → Except Error α
  visitI32 : Int → Except Error α
  visitI64 : Int → Except Error α
  visitI128 : Int → Except Error α
  visitU8 : Nat → Except Error α
  visitU16 : Nat → Except Error α
  visitU32 : Nat → Except Error α
  visitU64 : Nat → Except Error α
  visitU128 : Nat → Except Error α
  visitF32 : Nat → Except Error α
  visitF64 : Nat → Except Error α
  visitChar : Char → Except Error α
  visitStr : String → Except Error α
  visitBorrowedStr : String → Except Error α
  visitString : String → Except Error α
  visitBytes : List Nat → Except Error α
  visitBorrowedBytes : List Nat → Except Error α
  visitByteBuf : List Nat → Except Error α
  visitUnit : Except Error α
  visitNone : Except Error α
  visitSome : Buffer → Except Error α
  visitNewtypeStruct : Buffer → Except Error α
  visitSeq : List Buffer → Except Error (α × List Buffer)
  visitMap : List (Buffer × Buffer) → Except Error (α × List (Buffer × Buffer))
  visitEnum : Buffer → Option Buffer → Except Error α

/-- Modelled from the spec: the default `Visitor` callbacks of the decode
protocol (`de/mod.rs`, outside the sources at hand) each reject the pushed
shape with an invalid-type error naming the visitor's expectation. -/
def Visitor.mk0 (exp : String) : Visitor α where
  expecting := exp
  visitBool := fun x => .error (.invalidType (.bool x) exp)
  visitI8 := fun x => .error (.invalidType (.signed x) exp)
  visitI16 := fun x => .error (.invalidType (.signed x) exp)
  visitI32 := fun x => .error (.invalidType (.signed x) exp)
  visitI64 := fun x => .error (.invalidType (.signed x) exp)
  visitI128 := fun x => .error (.invalidType (.signed x) exp)
  visitU8 := fun x => .error (.invalidType (.unsigned x) exp)
  visitU16 := fun x => .error (.invalidType (.unsigned x) exp)
  visitU32 := fun x => .error (.invalidType (.unsigned x) exp)
  visitU64 := fun x => .error (.invalidType (.unsigned x) exp)
  visitU128 := fun x => .error (.invalidType (.unsigned x) exp)
  visitF32 := fun x => .error (.invalidType (.float x) exp)
  visitF64 := fun x => .error (.invalidType (.float x) exp)
  visitChar := fun x => .error (.invalidType (.char x) exp)
  visitStr := fun x => .error (.invalidType (.str x) exp)
  visitBorrowedStr := fun x => .error (.invalidType (.str x) exp)
  visitString := fun x => .error (.invalidType (.str x) exp)
  visitBytes := fun x => .error (.invalidType (.bytes x) exp)
  visitBorrowedBytes := fun x => .error (.invalidType (.bytes x) exp)
  visitByteBuf := fun x => .error (.invalidType (.bytes x) exp)
  visitUnit := .error (.invalidType .unit exp)
  visitNone := .error (.invalidType .option exp)
  visitSome := fun _ => .error (.invalidType .option exp)
  visitNewtypeStruct := fun _ => .error (.invalidType .newtypeStruct exp)
  visitSeq := fun _ => .error (.invalidType .seq exp)
  visitMap := fun _ => .error (.invalidType .map exp)
  visitEnum := fun _ _ => .error (.invalidType (.other "enum") exp)

/-- `visit_buffer_seq`: replay a buffered sequence through a visitor's
sequence callback and then run the end-of-sequence check.  The check is
modelled from the spec: `de::value::SeqDeserializer::end` (outside the
sources at hand) fails with a length-mismatch error when the consumer did
not drain every element. -/
def visit_buffer_seq (elems : List Buffer) (v : Visitor α) : Except Error α :=
  match v.visitSeq elems with
  | .error e => .error e
  | .ok (a, rest) =>
    if rest.isEmpty then .ok a
    else .error (.invalidLength elems.length "fewer elements in array")

/-- `visit_buffer_map`: replay a buffered map through a visitor's map
callback and then run the end-of-map check.  The check is modelled from the
spec: `de::value::MapDeserializer::end` (outside the sources at hand) fails
with a length-mismatch error when the consumer did not drain every entry. -/
def visit_buffer_map (entries : List (Buffer × Buffer)) (v : Visitor α) :
    Except Error α :=
  match v.visitMap entries with
  | .error e => .error e
  | .ok (a, rest) =>
    if rest.isEmpty then .ok a
    else .error (.invalidLength entries.length "fewer elements in map")

/-- `BufferDeserializer::invalid_type`. -/
def BufferDeserializer.invalidTypeErr (b : Buffer) (v : Visitor α) : Error :=
  .invalidType b.unexpected v.expecting

/-- `BufferDeserializer::deserialize_any`. -/
def BufferDeserializer.deserialize_any (b : Buffer) (v : Visitor α) :
    Except Error α :=
  match b with
  | .bool x => v.visitBool x
  | .u8 x => v.visitU8 x
  | .u16 x => v.visitU16 x
  | .u32 x => v.visitU32 x
  | .u64 x => v.visitU64 x
  | .i8 x => v.visitI8 x
  | .i16 x => v.visitI16 x
  | .i32 x => v.visitI32 x
  | .i64 x => v.visitI64 x
  | .f32 x => v.visitF32 x
  | .f64 x => v.visitF64 x
  | .char x => v.visitChar x
  | .string x => v.visitString x
  | .str x => v.visitBorrowedStr x
  | .byteBuf x => v.visitByteBuf x
  | .bytes x => v.visitBorrowedBytes x
  | .unit => v.visitUnit
  | .none => v.visitNone
  | .some x => v.visitSome x
  | .newtype x => v.visitNewtypeStruct x
  | .seq xs => visit_buffer_seq xs v
  | .map xs => visit_buffer_map xs v
  | .u128 x => v.visitU128 x
  | .i128 x => v.visitI128 x

/-- `BufferDeserializer::deserialize_bool`. -/
def BufferDeserializer.deserialize_bool (b : Buffer) (v : Visitor α) :
    Except Error α :=
  match b with
  | .bool x => v.visitBool x
  | _ => .error (BufferDeserializer.invalidTypeErr b v)

/-- `BufferDeserializer::deserialize_integer`: shared dispatch for all ten
integer targets, forwarding the raw value. -/
def BufferDeserializer.deserialize_integer (b : Buffer) (v : Visitor α) :
    Except Error α :=
  match b with
  | .u8 x => v.visitU8 x
  | .u16 x => v.visitU16 x
  | .u32 x => v.visitU32 x
  | .u64 x => v.visitU64 x
  | .i8 x => v.visitI8 x
  | .i16 x => v.visitI16 x
  | .i32 x => v.visitI32 x
  | .i64 x => v.visitI64 x
  | .u128 x => v.visitU128 x
  | .i128 x => v.visitI128 x
  | _ => .error (BufferDeserializer.invalidTypeErr b v)

/-- `BufferDeserializer::deserialize_float`: floats accept both float cases
and every integer case. -/
def BufferDeserializer.deserialize_float (b : Buffer) (v : Visitor α) :
    Except Error α :=
  match b with
  | .f32 x => v.visitF32 x
  | .f64 x => v.visitF64 x
  | .u8 x => v.visitU8 x
  | .u16 x => v.visitU16 x
  | .u32 x => v.visitU32 x
  | .u64 x => v.visitU64 x
  | .i8 x => v.visitI8 x
  | .i16 x => v.visitI16 x
  | .i32 x => v.visitI32 x
  | .i64 x => v.visitI64 x
  | .u128 x => v.visitU128 x
  | .i128 x => v.visitI128 x
  | _ => .error (BufferDeserializer.invalidTypeErr b v)

/-- `BufferDeserializer::deserialize_i8`. -/
def BufferDeserializer.deserialize_i8 (b : Buffer) (v : Visitor α) :
    Except Error α :=
  BufferDeserializer.deserialize_integer b v

/-- `BufferDeserializer::deserialize_i16`. -/
def BufferDeserializer.deserialize_i16 (b : Buffer) (v : Visitor α) :
    Except Error α :=
  BufferDeserializer.deserialize_integer b v

/-- `BufferDeserializer::deserialize_i32`. -/
def BufferDeserializer.deserialize_i32 (b : Buffer) (v : Visitor α) :
    Except Error α :=
  BufferDeserializer.deserialize_integer b v

/-- `BufferDeserializer::deserialize_i64`. -/
def BufferDeserializer.deserialize_i64 (b : Buffer) (v : Visitor α) :
    Except Error α :=
  BufferDeserializer.deserialize_integer b v

/-- `BufferDeserializer::deserialize_i128`. -/
def BufferDeserializer.deserialize_i128 (b : Buffer) (v : Visitor α) :
    Except Error α :=
  BufferDeserializer.deserialize_integer b v

/-- `BufferDeserializer::deserialize_u8`. -/
def BufferDeserializer.deserialize_u8 (b : Buffer) (v : Visitor α) :
    Except Error α :=
  BufferDeserializer.deserialize_integer b v

/-- `BufferDeserializer::deserialize_u16`. -/
def BufferDeserializer.deserialize_u16 (b : Buffer) (v : Visitor α) :
    Except Error α :=
  BufferDeserializer.deserialize_integer b v

/-- `BufferDeserializer::deserialize_u32`. -/
def BufferDeserializer.deserialize_u32 (b : Buffer) (v : Visitor α) :
    Except Error α :=
  BufferDeserializer.deserialize_integer b v

/-- `BufferDeserializer::deserialize_u64`. -/
def BufferDeserializer.deserialize_u64 (b : Buffer) (v : Visitor α) :
    Except Error α :=
  BufferDeserializer.deserialize_integer b v

/-- `BufferDeserializer::deserialize_u128`. -/
def BufferDeserializer.deserialize_u128 (b : Buffer) (v : Visitor α) :
    Except Error α :=
  BufferDeserializer.deserialize_integer b v

/-- `BufferDeserializer::deserialize_f32`. -/
def BufferDeserializer.deserialize_f32 (b : Buffer) (v : Visitor α) :
    Except Error α :=
  BufferDeserializer.deserialize_float b v

/-- `BufferDeserializer::deserialize_f64`. -/
def BufferDeserializer.deserialize_f64 (b : Buffer) (v : Visitor α) :
    Except Error α :=
  BufferDeserializer.deserialize_float b v

/-- `BufferDeserializer::deserialize_char`. -/
def BufferDeserializer.deserialize_char (b : Buffer) (v : Visitor α) :
    Except Error α :=
  match b with
  | .char x => v.visitChar x
  | .string x => v.visitString x
  | .str x => v.visitBorrowedStr x
  | _ => .error (BufferDeserializer.invalidTypeErr b v)

/-- `BufferDeserializer::deserialize_string`. -/
def BufferDeserializer.deserialize_string (b : Buffer) (v : Visitor α) :
    Except Error α :=
  match b with
  | .string x => v.visitString x
  | .str x => v.visitBorrowedStr x
  | .byteBuf x => v.visitByteBuf x
  | .bytes x => v.visitBorrowedBytes x
  | _ => .error (BufferDeserializer.invalidTypeErr b v)

/-- `BufferDeserializer::deserialize_str` forwards to `deserialize_string`. -/
def BufferDeserializer.deserialize_str (b : Buffer) (v : Visitor α) :
    Except Error α :=
  BufferDeserializer.deserialize_string b v

/-- `BufferDeserializer::deserialize_byte_buf`. -/
def BufferDeserializer.deserialize_byte_buf (b : Buffer) (v : Visitor α) :
    Except Error α :=
  match b with
  | .string x => v.visitString x
  | .str x => v.visitBorrowedStr x
  | .byteBuf x => v.visitByteBuf x
  | .bytes x => v.visitBorrowedBytes x
  | .seq xs => visit_buffer_seq xs v
  | _ => .error (BufferDeserializer.invalidTypeErr b v)

/-- `BufferDeserializer::deserialize_bytes` forwards to
`deserialize_byte_buf`. -/
def BufferDeserializer.deserialize_bytes (b : Buffer) (v : Visitor α) :
    Except Error α :=
  BufferDeserializer.deserialize_byte_buf b v

/-- `BufferDeserializer::deserialize_option`. -/
def BufferDeserializer.deserialize_option (b : Buffer) (v : Visitor α) :
    Except Error α :=
  match b with
  | .none => v.visitNone
  | .some x => v.visitSome x
  | .unit => v.visitUnit
  | _ => v.visitSome b

/-- `BufferDeserializer::deserialize_unit`: `Unit` matches, and so does an
empty `Map` (newtype-variant-containing-unit compatibility). -/
def BufferDeserializer.deserialize_unit (b : Buffer) (v : Visitor α) :
    Except Error α :=
  match b with
  | .unit => v.visitUnit
  | .map [] => v.visitUnit
  | _ => .error (BufferDeserializer.invalidTypeErr b v)

/-- `BufferDeserializer::deserialize_unit_struct`: empty `Map` or empty
`Seq` match directly; every other case falls through to `deserialize_any`. -/
def BufferDeserializer.deserialize_unit_struct (_name : String) (b : Buffer)
    (v : Visitor α) : Except Error α :=
  match b with
  | .map [] => v.visitUnit
  | .seq [] => v.visitUnit
  | _ => BufferDeserializer.deserialize_any b v

/-- `BufferDeserializer::deserialize_newtype_struct`. -/
def BufferDeserializer.deserialize_newtype_struct (_name : String)
    (b : Buffer) (v : Visitor α) : Except Error α :=
  match b with
  | .newtype x => v.visitNewtypeStruct x
  | _ => v.visitNewtypeStruct b

/-- `BufferDeserializer::deserialize_seq`. -/
def BufferDeserializer.deserialize_seq (b : Buffer) (v : Visitor α) :
    Except Error α :=
  match b with
  | .seq xs => visit_buffer_seq xs v
  | _ => .error (BufferDeserializer.invalidTypeErr b v)

/-- `BufferDeserializer::deserialize_tuple` forwards to `deserialize_seq`. -/
def BufferDeserializer.deserialize_tuple (_len : Nat) (b : Buffer)
    (v : Visitor α) : Except Error α :=
  BufferDeserializer.deserialize_seq b v

/-- `BufferDeserializer::deserialize_tuple_struct` forwards to
`deserialize_seq`. -/
def BufferDeserializer.deserialize_tuple_struct (_name : String) (_len : Nat)
    (b : Buffer) (v : Visitor α) : Except Error α :=
  BufferDeserializer.deserialize_seq b v

/-- `BufferDeserializer::deserialize_map`. -/
def BufferDeserializer.deserialize_map (b : Buffer) (v : Visitor α) :
    Except Error α :=
  match b with
  | .map xs => visit_buffer_map xs v
  | _ => .error (BufferDeserializer.invalidTypeErr b v)

/-- `BufferDeserializer::deserialize_struct`: accepts `Seq` (positional) and
`Map`. -/
def BufferDeserializer.deserialize_struct (_name : String)
    (_fields : List String) (b : Buffer) (v : Visitor α) : Except Error α :=
  match b with
  | .seq xs => visit_buffer_seq xs v
  | .map xs => visit_buffer_map xs v
  | _ => .error (BufferDeserializer.invalidTypeErr b v)

/-- `BufferDeserializer::deserialize_enum`: a single-entry map yields
`(tag, Some payload)`, a bare string yields `(tag, None)`; the pair is
handed to the visitor's enum callback (`EnumDeserializer::new`). -/
def BufferDeserializer.deserialize_enum (_name : String)
    (_variants : List String) (b : Buffer) (v : Visitor α) : Except Error α :=
  match b with
  | .map [] => .error (.invalidValue .map "map with a single key")
  | .map [(k, val)] => v.visitEnum k (Option.some val)
  | .map (_ :: _ :: _) => .error (.invalidValue .map "map with a single key")
  | .string s => v.visitEnum (.string s) Option.none
  | .str s => v.visitEnum (.str s) Option.none
  | other => .error (.invalidType other.unexpected "string or map")

/-- `BufferDeserializer::deserialize_identifier`. -/
def BufferDeserializer.deserialize_identifier (b : Buffer) (v : Visitor α) :
    Except Error α :=
  match b with
  | .string x => v.visitString x
  | .str x => v.visitBorrowedStr x
  | .byteBuf x => v.visitByteBuf x
  | .bytes x => v.visitBorrowedBytes x
  | .u8 x => v.visitU8 x
  | .u64 x => v.visitU64 x
  | _ => .error (BufferDeserializer.invalidTypeErr b v)

/-- `BufferDeserializer::deserialize_ignored_any`: drops the buffer and
reports unit. -/
def BufferDeserializer.deserialize_ignored_any (_b : Buffer) (v : Visitor α) :
    Except Error α :=
  v.visitUnit

/-- `BufferRefDeserializer::invalid_type`. -/
def BufferRefDeserializer.invalidTypeErr (b : Buffer) (v : Visitor α) : Error :=
  .invalidType b.unexpected v.expecting

/-- `BufferRefDeserializer::deserialize_any`: as the owned dispatch, except
owned text goes through `visit_str` and owned byte buffers through
`visit_bytes` (the reference cannot hand out ownership). -/
def BufferRefDeserializer.deserialize_any (b : Buffer) (v : Visitor α) :
    Except Error α :=
  match b with
  | .bool x => v.visitBool x
  | .u8 x => v.visitU8 x
  | .u16 x => v.visitU16 x
  | .u32 x => v.visitU32 x
  | .u64 x => v.visitU64 x
  | .i8 x => v.visitI8 x
  | .i16 x => v.visitI16 x
  | .i32 x => v.visitI32 x
  | .i64 x => v.visitI64 x
  | .f32 x => v.visitF32 x
  | .f64 x => v.visitF64 x
  | .char x => v.visitChar x
  | .string x => v.visitStr x
  | .str x => v.visitBorrowedStr x
  | .byteBuf x => v.visitBytes x
  | .bytes x => v.visitBorrowedBytes x
  | .unit => v.visitUnit
  | .none => v.visitNone
  | .some x => v.visitSome x
  | .newtype x => v.visitNewtypeStruct x
  | .seq xs => visit_buffer_seq xs v
  | .map xs => visit_buffer_map xs v
  | .u128 x => v.visitU128 x
  | .i128 x => v.visitI128 x

/-- `BufferRefDeserializer::deserialize_bool`. -/
def BufferRefDeserializer.deserialize_bool (b : Buffer) (v : Visitor α) :
    Except Error α :=
  match b with
  | .bool x => v.visitBool x
  | _ => .error (BufferRefDeserializer.invalidTypeErr b v)

/-- `BufferRefDeserializer::deserialize_integer`. -/
def BufferRefDeserializer.deserialize_integer (b : Buffer) (v : Visitor α) :
    Except Error α :=
  match b with
  | .u8 x => v.visitU8 x
  | .u16 x => v.visitU16 x
  | .u32 x => v.visitU32 x
  | .u64 x => v.visitU64 x
  | .i8 x => v.visitI8 x
  | .i16 x => v.visitI16 x
  | .i32 x => v.visitI32 x
  | .i64 x => v.visitI64 x
  | .u128 x => v.visitU128 x
  | .i128 x => v.visitI128 x
  | _ => .error (BufferRefDeserializer.invalidTypeErr b v)

/-- `BufferRefDeserializer::deserialize_float`. -/
def BufferRefDeserializer.deserialize_float (b : Buffer) (v : Visitor α) :
    Except Error α :=
  match b with
  | .f32 x => v.visitF32 x
  | .f64 x => v.visitF64 x
  | .u8 x => v.visitU8 x
  | .u16 x => v.visitU16 x
  | .u32 x => v.visitU32 x
  | .u64 x => v.visitU64 x
  | .i8 x => v.visitI8 x
  | .i16 x => v.visitI16 x
  | .i32 x => v.visitI32 x
  | .i64 x => v.visitI64 x
  | .u128 x => v.visitU128 x
  | .i128 x => v.visitI128 x
  | _ => .error (BufferRefDeserializer.invalidTypeErr b v)

/-- `BufferRefDeserializer::deserialize_i8`. -/
def BufferRefDeserializer.deserialize_i8 (b : Buffer) (v : Visitor α) :
    Except Error α :=
  BufferRefDeserializer.deserialize_integer b v

/-- `BufferRefDeserializer::deserialize_i16`. -/
def BufferRefDeserializer.deserialize_i16 (b : Buffer) (v : Visitor α) :
    Except Error α :=
  BufferRefDeserializer.deserialize_integer b v

/-- `BufferRefDeserializer::deserialize_i32`. -/
def BufferRefDeserializer.deserialize_i32 (b : Buffer) (v : Visitor α) :
    Except Error α :=
  BufferRefDeserializer.deserialize_integer b v

/-- `BufferRefDeserializer::deserialize_i64`. -/
def BufferRefDeserializer.deserialize_i64 (b : Buffer) (v : Visitor α) :
    Except Error α :=
  BufferRefDeserializer.deserialize_integer b v

/-- `BufferRefDeserializer::deserialize_i128`. -/
def BufferRefDeserializer.deserialize_i128 (b : Buffer) (v : Visitor α) :
    Except Error α :=
  BufferRefDeserializer.deserialize_integer b v

/-- `BufferRefDeserializer::deserialize_u8`. -/
def BufferRefDeserializer.deserialize_u8 (b : Buffer) (v : Visitor α) :
    Except Error α :=
  BufferRefDeserializer.deserialize_integer b v

/-- `BufferRefDeserializer::deserialize_u16`. -/
def BufferRefDeserializer.deserialize_u16 (b : Buffer) (v : Visitor α) :
    Except Error α :=
  BufferRefDeserializer.deserialize_integer b v

/-- `BufferRefDeserializer::deserialize_u32`. -/
def BufferRefDeserializer.deserialize_u32 (b : Buffer) (v : Visitor α) :
    Except Error α :=
  BufferRefDeserializer.deserialize_integer b v

/-- `BufferRefDeserializer::deserialize_u64`. -/
def BufferRefDeserializer.deserialize_u64 (b : Buffer) (v : Visitor α) :
    Except Error α :=
  BufferRefDeserializer.deserialize_integer b v

/-- `BufferRefDeserializer::deserialize_u128`. -/
def BufferRefDeserializer.deserialize_u128 (b : Buffer) (v : Visitor α) :
    Except Error α :=
  BufferRefDeserializer.deserialize_integer b v

/-- `BufferRefDeserializer::deserialize_f32`. -/
def BufferRefDeserializer.deserialize_f32 (b : Buffer) (v : Visitor α) :
    Except Error α :=
  BufferRefDeserializer.deserialize_float b v

/-- `BufferRefDeserializer::deserialize_f64`. -/
def BufferRefDeserializer.deserialize_f64 (b : Buffer) (v : Visitor α) :
    Except Error α :=
  BufferRefDeserializer.deserialize_float b v

/-- `BufferRefDeserializer::deserialize_char`. -/
def BufferRefDeserializer.deserialize_char (b : Buffer) (v : Visitor α) :
    Except Error α :=
  match b with
  | .char x => v.visitChar x
  | .string x => v.visitStr x
  | .str x => v.visitBorrowedStr x
  | _ => .error (BufferRefDeserializer.invalidTypeErr b v)

/-- `BufferRefDeserializer::deserialize_str`. -/
def BufferRefDeserializer.deserialize_str (b : Buffer) (v : Visitor α) :
    Except Error α :=
  match b with
  | .string x => v.visitStr x
  | .str x => v.visitBorrowedStr x
  | .byteBuf x => v.visitBytes x
  | .bytes x => v.visitBorrowedBytes x
  | _ => .error (BufferRefDeserializer.invalidTypeErr b v)

/-- `BufferRefDeserializer::deserialize_string` forwards to
`deserialize_str`. -/
def BufferRefDeserializer.deserialize_string (b : Buffer) (v : Visitor α) :
    Except Error α :=
  BufferRefDeserializer.deserialize_str b v

/-- `BufferRefDeserializer::deserialize_bytes`. -/
def BufferRefDeserializer.deserialize_bytes (b : Buffer) (v : Visitor α) :
    Except Error α :=
  match b with
  | .string x => v.visitStr x
  | .str x => v.visitBorrowedStr x
  | .byteBuf x => v.visitBytes x
  | .bytes x => v.visitBorrowedBytes x
  | .seq xs => visit_buffer_seq xs v
  | _ => .error (BufferRefDeserializer.invalidTypeErr b v)

/-- `BufferRefDeserializer::deserialize_byte_buf` forwards to
`deserialize_bytes`. -/
def BufferRefDeserializer.deserialize_byte_buf (b : Buffer) (v : Visitor α) :
    Except Error α :=
  BufferRefDeserializer.deserialize_bytes b v

/-- `BufferRefDeserializer::deserialize_option`. -/
def BufferRefDeserializer.deserialize_option (b : Buffer) (v : Visitor α) :
    Except Error α :=
  match b with
  | .none => v.visitNone
  | .some x => v.visitSome x
  | .unit => v.visitUnit
  | _ => v.visitSome b

/-- `BufferRefDeserializer::deserialize_unit`: only an actual `Unit`
matches (no empty-map compatibility shortcut). -/
def BufferRefDeserializer.deserialize_unit (b : Buffer) (v : Visitor α) :
    Except Error α :=
  match b with
  | .unit => v.visitUnit
  | _ => .error (BufferRefDeserializer.invalidTypeErr b v)

/-- `BufferRefDeserializer::deserialize_unit_struct` forwards to
`deserialize_unit`. -/
def BufferRefDeserializer.deserialize_unit_struct (_name : String)
    (b : Buffer) (v : Visitor α) : Except Error α :=
  BufferRefDeserializer.deserialize_unit b v

/-- `BufferRefDeserializer::deserialize_newtype_struct`. -/
def BufferRefDeserializer.deserialize_newtype_struct (_name : String)
    (b : Buffer) (v : Visitor α) : Except Error α :=
  match b with
  | .newtype x => v.visitNewtypeStruct x
  | _ => v.visitNewtypeStruct b

/-- `BufferRefDeserializer::deserialize_seq`. -/
def BufferRefDeserializer.deserialize_seq (b : Buffer) (v : Visitor α) :
    Except Error α :=
  match b with
  | .seq xs => visit_buffer_seq xs v
  | _ => .error (BufferRefDeserializer.invalidTypeErr b v)

/-- `BufferRefDeserializer::deserialize_tuple` forwards to
`deserialize_seq`. -/
def BufferRefDeserializer.deserialize_tuple (_len : Nat) (b : Buffer)
    (v : Visitor α) : Except Error α :=
  BufferRefDeserializer.deserialize_seq b v

/-- `BufferRefDeserializer::deserialize_tuple_struct` forwards to
`deserialize_seq`. -/
def BufferRefDeserializer.deserialize_tuple_struct (_name : String)
    (_len : Nat) (b : Buffer) (v : Visitor α) : Except Error α :=
  BufferRefDeserializer.deserialize_seq b v

/-- `BufferRefDeserializer::deserialize_map`. -/
def BufferRefDeserializer.deserialize_map (b : Buffer) (v : Visitor α) :
    Except Error α :=
  match b with
  | .map xs => visit_buffer_map xs v
  | _ => .error (BufferRefDeserializer.invalidTypeErr b v)

/-- `BufferRefDeserializer::deserialize_struct`. -/
def BufferRefDeserializer.deserialize_struct (_name : String)
    (_fields : List String) (b : Buffer) (v : Visitor α) : Except Error α :=
  match b with
  | .seq xs => visit_buffer_seq xs v
  | .map xs => visit_buffer_map xs v
  | _ => .error (BufferRefDeserializer.invalidTypeErr b v)

/-- `BufferRefDeserializer::deserialize_enum`. -/
def BufferRefDeserializer.deserialize_enum (_name : String)
    (_variants : List String) (b : Buffer) (v : Visitor α) : Except Error α :=
  match b with
  | .map [] => .error (.invalidValue .map "map with a single key")
  | .map [(k, val)] => v.visitEnum k (Option.some val)
  | .map (_ :: _ :: _) => .error (.invalidValue .map "map with a single key")
  | .string s => v.visitEnum (.string s) Option.none
  | .str s => v.visitEnum (.str s) Option.none
  | other => .error (.invalidType other.unexpected "string or map")

/-- `BufferRefDeserializer::deserialize_identifier`. -/
def BufferRefDeserializer.deserialize_identifier (b : Buffer) (v : Visitor α) :
    Except Error α :=
  match b with
  | .string x => v.visitStr x
  | .str x => v.visitBorrowedStr x
  | .byteBuf x => v.visitBytes x
  | .bytes x => v.visitBorrowedBytes x
  | .u8 x => v.visitU8 x
  | .u64 x => v.visitU64 x
  | _ => .error (BufferRefDeserializer.invalidTypeErr b v)

/-- `BufferRefDeserializer::deserialize_ignored_any`. -/
def BufferRefDeserializer.deserialize_ignored_any (_b : Buffer)
    (v : Visitor α) : Except Error α :=
  v.visitUnit

/-- `BufferVisitor::visit_bool`. -/
def BufferVisitor.visit_bool (x : Bool) : Except Error Buffer :=
  .ok (.bool x)

/-- `BufferVisitor::visit_i8`. -/
def BufferVisitor.visit_i8 (x : Int) : Except Error Buffer :=
  .ok (.i8 x)

/-- `BufferVisitor::visit_i16`. -/
def BufferVisitor.visit_i16 (x : Int) : Except Error Buffer :=
  .ok (.i16 x)

/-- `BufferVisitor::visit_i32`. -/
def BufferVisitor.visit_i32 (x : Int) : Except Error Buffer :=
  .ok (.i32 x)

/-- `BufferVisitor::visit_i64`. -/
def BufferVisitor.visit_i64 (x : Int) : Except Error Buffer :=
  .ok (.i64 x)

/-- `BufferVisitor::visit_i128`. -/
def BufferVisitor.visit_i128 (x : Int) : Except Error Buffer :=
  .ok (.i128 x)

/-- `BufferVisitor::visit_u8`. -/
def BufferVisitor.visit_u8 (x : Nat) : Except Error Buffer :=
  .ok (.u8 x)

/-- `BufferVisitor::visit_u16`. -/
def BufferVisitor.visit_u16 (x : Nat) : Except Error Buffer :=
  .ok (.u16 x)

/-- `BufferVisitor::visit_u32`. -/
def BufferVisitor.visit_u32 (x : Nat) : Except Error Buffer :=
  .ok (.u32 x)

/-- `BufferVisitor::visit_u64`. -/
def BufferVisitor.visit_u64 (x : Nat) : Except Error Buffer :=
  .ok (.u64 x)

/-- `BufferVisitor::visit_u128`. -/
def BufferVisitor.visit_u128 (x : Nat) : Except Error Buffer :=
  .ok (.u128 x)

/-- `BufferVisitor::visit_f32`. -/
def BufferVisitor.visit_f32 (x : Nat) : Except Error Buffer :=
  .ok (.f32 x)

/-- `BufferVisitor::visit_f64`. -/
def BufferVisitor.visit_f64 (x : Nat) : Except Error Buffer :=
  .ok (.f64 x)

/-- `BufferVisitor::visit_char`. -/
def BufferVisitor.visit_char (x : Char) : Except Error Buffer :=
  .ok (.char x)

/-- `BufferVisitor::visit_str`: a transient string is copied into the owned
case. -/
def BufferVisitor.visit_str (x : String) : Except Error Buffer :=
  .ok (.string x)

/-- `BufferVisitor::visit_borrowed_str`: a borrowed string is kept as the
borrowed case, same underlying text. -/
def BufferVisitor.visit_borrowed_str (x : String) : Except Error Buffer :=
  .ok (.str x)

/-- `BufferVisitor::visit_string`. -/
def BufferVisitor.visit_string (x : String) : Except Error Buffer :=
  .ok (.string x)

/-- `BufferVisitor::visit_bytes`: transient bytes are copied into the owned
case. -/
def BufferVisitor.visit_bytes (x : List Nat) : Except Error Buffer :=
  .ok (.byteBuf x)

/-- `BufferVisitor::visit_borrowed_bytes`. -/
def BufferVisitor.visit_borrowed_bytes (x : List Nat) : Except Error Buffer :=
  .ok (.bytes x)

/-- `BufferVisitor::visit_byte_buf`. -/
def BufferVisitor.visit_byte_buf (x : List Nat) : Except Error Buffer :=
  .ok (.byteBuf x)

/-- `BufferVisitor::visit_unit`. -/
def BufferVisitor.visit_unit : Except Error Buffer :=
  .ok .unit

/-- `BufferVisitor::visit_none`. -/
def BufferVisitor.visit_none : Except Error Buffer :=
  .ok .none

/-- `BufferVisitor::visit_some`: the recursive decode of the inner value is
modelled by its outcome. -/
def BufferVisitor.visit_some (inner : Except Error Buffer) :
    Except Error Buffer :=
  inner.map fun x => .some x

/-- `BufferVisitor::visit_newtype_struct`. -/
def BufferVisitor.visit_newtype_struct (inner : Except Error Buffer) :
    Except Error Buffer :=
  inner.map fun x => .newtype x

/-- `BufferVisitor::visit_seq`: the element-pulling loop is modelled by its
outcome, the list of pulled elements (or the first error). -/
def BufferVisitor.visit_seq (pulled : Except Error (List Buffer)) :
    Except Error Buffer :=
  pulled.map fun xs => .seq xs

/-- `BufferVisitor::visit_map`. -/
def BufferVisitor.visit_map
    (pulled : Except Error (List (Buffer × Buffer))) : Except Error Buffer :=
  pulled.map fun xs => .map xs

/-- `BufferVisitor::visit_enum`: rejects every enum access with a custom
error, never building a buffer. -/
def BufferVisitor.visit_enum {β : Type} (_access : β) : Except Error Buffer :=
  .error (.custom "untagged and internally tagged enums do not support enum input")

/-- Modelled from the spec: the `bool` target (primitive `Deserialize` impl,
outside the sources at hand), accepting exactly a pushed boolean. -/
def boolVisitor : Visitor Bool :=
  { Visitor.mk0 "a boolean" with visitBool := fun x => .ok x }

/-- Modelled from the spec: the `u8` target, accepting its own width. -/
def u8Visitor : Visitor Nat :=
  { Visitor.mk0 "u8" with visitU8 := fun x => .ok x }

/-- Modelled from the spec: the `u16` target, accepting its own width. -/
def u16Visitor : Visitor Nat :=
  { Visitor.mk0 "u16" with visitU16 := fun x => .ok x }

/-- Modelled from the spec: the `u32` target, accepting its own width. -/
def u32Visitor : Visitor Nat :=
  { Visitor.mk0 "u32" with visitU32 := fun x => .ok x }

/-- Modelled from the spec: the `u64` target, accepting its own width. -/
def u64Visitor : Visitor Nat :=
  { Visitor.mk0 "u64" with visitU64 := fun x => .ok x }

/-- Modelled from the spec: the `u128` target, accepting its own width. -/
def u128Visitor : Visitor Nat :=
  { Visitor.mk0 "u128" with visitU128 := fun x => .ok x }

/-- Modelled from the spec: the `i8` target, accepting its own width. -/
def i8Visitor : Visitor Int :=
  { Visitor.mk0 "i8" with visitI8 := fun x => .ok x }

/-- Modelled from the spec: the `i16` target, accepting its own width. -/
def i16Visitor : Visitor Int :=
  { Visitor.mk0 "i16" with visitI16 := fun x => .ok x }

/-- Modelled from the spec: the `i32` target, accepting its own width. -/
def i32Visitor : Visitor Int :=
  { Visitor.mk0 "i32" with visitI32 := fun x => .ok x }

/-- Modelled from the spec: the `i64` target, accepting its own width. -/
def i64Visitor : Visitor Int :=
  { Visitor.mk0 "i64" with visitI64 := fun x => .ok x }

/-- Modelled from the spec: the `i128` target, accepting its own width. -/
def i128Visitor : Visitor Int :=
  { Visitor.mk0 "i128" with visitI128 := fun x => .ok x }

/-- Modelled from the spec: the `f32` target, accepting its own width. -/
def f32Visitor : Visitor Nat :=
  { Visitor.mk0 "f32" with visitF32 := fun x => .ok x }

/-- Modelled from the spec: the `f64` target, accepting its own width. -/
def f64Visitor : Visitor Nat :=
  { Visitor.mk0 "f64" with visitF64 := fun x => .ok x }

/-- Modelled from the spec: the `char` target, accepting a pushed char. -/
def charVisitor : Visitor Char :=
  { Visitor.mk0 "a character" with visitChar := fun x => .ok x }

/-- Modelled from the spec: the owned string target, accepting any pushed
text. -/
def stringVisitor : Visitor String :=
  { Visitor.mk0 "a string" with
    visitStr := fun x => .ok x
    visitBorrowedStr := fun x => .ok x
    visitString := fun x => .ok x }

/-- Modelled from the spec: the byte-buffer target, accepting any pushed
byte data. -/
def byteBufVisitor : Visitor (List Nat) :=
  { Visitor.mk0 "byte array" with
    visitBytes := fun x => .ok x
    visitBorrowedBytes := fun x => .ok x
    visitByteBuf := fun x => .ok x }

/-- Modelled from the spec: the unit target, accepting a pushed unit. -/
def unitVisitor : Visitor Unit :=
  { Visitor.mk0 "unit" with visitUnit := .ok () }

/-- Round trip: push a value through the builder, then replay the resulting
buffer into a target. -/
def roundtrip (push : Except Error Buffer)
    (target : Buffer → Except Error α) : Except Error α :=
  push >>= target

/-- `true` exactly on the cases the enum target accepts broadly
(`Map`, `String`, `Str`). -/
def Buffer.isStringOrMap : Buffer → Bool
  | .map _ => true
  | .string _ => true
  | .str _ => true
  | _ => false

/-- `true` exactly on the cases the optional target treats specially
(`None`, `Some`, `Unit`). -/
def Buffer.isOptionSpecial : Buffer → Bool
  | .none => true
  | .some _ => true
  | .unit => true
  | _ => false

/-- `true` exactly on `Unit`. -/
def Buffer.isUnitCase : Buffer → Bool
  | .unit => true
  | _ => false

/-- `true` exactly on the cases the owned unit target accepts (`Unit` and
the empty `Map`). -/
def Buffer.isUnitOrEmptyMap : Buffer → Bool
  | .unit => true
  | .map [] => true
  | _ => false

/-- `true` exactly on an empty `Map` or empty `Seq`. -/
def Buffer.isEmptyMapOrSeq : Buffer → Bool
  | .map [] => true
  | .seq [] => true
  | _ => false

/-- `true` exactly on the `Seq` case. -/
def Buffer.isSeqCase : Buffer → Bool
  | .seq _ => true
  | _ => false

/-- `true` exactly on the cases the char target accepts (`Char`, `String`,
`Str`). -/
def Buffer.isCharOrText : Buffer → Bool
  | .char _ => true
  | .string _ => true
  | .str _ => true
  | _ => false

/-- One invocation of the borrowing replay adapter: a method selector
together with the visitor (and the static arguments the method takes). -/
inductive RefCall (α : Type) where
  | any (v : Visitor α)
  | bool (v : Visitor α)
  | i8 (v : Visitor α)
  | i16 (v : Visitor α)
  | i32 (v : Visitor α)
  | i64 (v : Visitor α)
  | i128 (v : Visitor α)
  | u8 (v : Visitor α)
  | u16 (v : Visitor α)
  | u32 (v : Visitor α)
  | u64 (v : Visitor α)
  | u128 (v : Visitor α)
  | f32 (v : Visitor α)
  | f64 (v : Visitor α)
  | char (v : Visitor α)
  | str (v : Visitor α)
  | string (v : Visitor α)
  | bytes (v : Visitor α)
  | byteBuf (v : Visitor α)
  | option (v : Visitor α)
  | unit (v : Visitor α)
  | unitStruct (name : String) (v : Visitor α)
  | newtypeStruct (name : String) (v : Visitor α)
  | seq (v : Visitor α)
  | tuple (len : Nat) (v : Visitor α)
  | tupleStruct (name : String) (len : Nat) (v : Visitor α)
  | map (v : Visitor α)
  | structCall (name : String) (fields : List String) (v : Visitor α)
  | enumCall (name : String) (variants : List String) (v : Visitor α)
  | identifier (v : Visitor α)
  | ignoredAny (v : Visitor α)

/-- Run one borrowing-adapter method on (a reference to) the buffer. -/
def runRefCall (c : RefCall α) (b : Buffer) : Except Error α :=
  match c with
  | .any v => BufferRefDeserializer.deserialize_any b v
  | .bool v => BufferRefDeserializer.deserialize_bool b v
  | .i8 v => BufferRefDeserializer.deserialize_i8 b v
  | .i16 v => BufferRefDeserializer.deserialize_i16 b v
  | .i32 v => BufferRefDeserializer.deserialize_i32 b v
  | .i64 v => BufferRefDeserializer.deserialize_i64 b v
  | .i128 v => BufferRefDeserializer.deserialize_i128 b v
  | .u8 v => BufferRefDeserializer.deserialize_u8 b v
  | .u16 v => BufferRefDeserializer.deserialize_u16 b v
  | .u32 v => BufferRefDeserializer.deserialize_u32 b v
  | .u64 v => BufferRefDeserializer.deserialize_u64 b v
  | .u128 v => BufferRefDeserializer.deserialize_u128 b v
  | .f32 v => BufferRefDeserializer.deserialize_f32 b v
  | .f64 v => BufferRefDeserializer.deserialize_f64 b v
  | .char v => BufferRefDeserializer.deserialize_char b v
  | .str v => BufferRefDeserializer.deserialize_str b v
  | .string v => BufferRefDeserializer.deserialize_string b v
  | .bytes v => BufferRefDeserializer.deserialize_bytes b v
  | .byteBuf v => BufferRefDeserializer.deserialize_byte_buf b v
  | .option v => BufferRefDeserializer.deserialize_option b v
  | .unit v => BufferRefDeserializer.deserialize_unit b v
  | .unitStruct name v => BufferRefDeserializer.deserialize_unit_struct name b v
  | .newtypeStruct name v =>
    BufferRefDeserializer.deserialize_newtype_struct name b v
  | .seq v => BufferRefDeserializer.deserialize_seq b v
  | .tuple len v => BufferRefDeserializer.deserialize_tuple len b v
  | .tupleStruct name len v =>
    BufferRefDeserializer.deserialize_tuple_struct name len b v
  | .map v => BufferRefDeserializer.deserialize_map b v
  | .structCall name fields v =>
    BufferRefDeserializer.deserialize_struct name fields b v
  | .enumCall name variants v =>
    BufferRefDeserializer.deserialize_enum name variants b v
  | .identifier v => BufferRefDeserializer.deserialize_identifier b v
  | .ignoredAny v => BufferRefDeserializer.deserialize_ignored_any b v

/-- `true` exactly when a decode attempt failed. -/
def isErr : Except Error α → Bool
  | .error _ => true
  | .ok _ => false

/-- Trial-and-error matching against a sequence of candidate target shapes:
each attempt runs the borrowing adapter on the same buffer, and the first
success wins (the caller's retry policy for untagged enums). -/
def tryCalls : List (RefCall α) → Buffer → Except Error α
  | [], _ => .error (.custom "data did not match any variant")
  | c :: rest, b =>
    match runRefCall c b with
    | .ok a => .ok a
    | .error _ => tryCalls rest b

/-- Claim C1: for the owned adapter's enum target, a single-entry map yields
its key as the variant tag and its value as the payload; a bare owned or
borrowed string yields itself as the tag with no payload; a map with zero or
two-plus entries fails with an invalid-value error expecting a map with a
single key; every other case fails with an invalid-type error expecting
string or map. -/
theorem claim1_enum_target {α : Type} (name : String) (variants : List String)
    (v : Visitor α) :
    (∀ k p, BufferDeserializer.deserialize_enum name variants (.map [(k, p)]) v
      = v.visitEnum k (Option.some p))
  ∧ (∀ s, BufferDeserializer.deserialize_enum name variants (.string s) v
      = v.visitEnum (.string s) Option.none)
  ∧ (∀ s, BufferDeserializer.deserialize_enum name variants (.str s) v
      = v.visitEnum (.str s) Option.none)
  ∧ (BufferDeserializer.deserialize_enum name variants (.map []) v
      = .error (.invalidValue .map "map with a single key"))
  ∧ (∀ e1 e2 rest,
      BufferDeserializer.deserialize_enum name variants (.map (e1 :: e2 :: rest)) v
      = .error (.invalidValue .map "map with a single key"))
  ∧ (∀ b, b.isStringOrMap = false →
      BufferDeserializer.deserialize_enum name variants b v
      = .error (.invalidType b.unexpected "string or map")) := by
  refine ⟨fun k p => rfl, fun s => rfl, fun s => rfl, rfl,
    fun e1 e2 rest => rfl, ?_⟩
  intro b hb
  cases b <;> first
    | rfl
    | simp [Buffer.isStringOrMap] at hb

/-- Witness for C1 at a concrete non-string, non-map input. -/
theorem claim1_enum_target_witness :
    Buffer.isStringOrMap (.bool true) = false
  ∧ BufferDeserializer.deserialize_enum "E" ["V"] (.bool true)
      (Visitor.mk0 "t" : Visitor Unit)
      = .error (.invalidType (.bool true) "string or map") :=
  ⟨rfl, (claim1_enum_target "E" ["V"] (Visitor.mk0 "t" : Visitor Unit)).2.2.2.2.2
    (.bool true) rfl⟩

/-- Claim C2: every supported primitive value round-trips: pushing it
through the builder and replaying the resulting buffer through the owned
adapter into the same target yields the value back. -/
theorem claim2_primitive_roundtrip :
    (∀ x : Bool, roundtrip (BufferVisitor.visit_bool x)
      (fun b => BufferDeserializer.deserialize_bool b boolVisitor) = .ok x)
  ∧ (∀ x : Nat, roundtrip (BufferVisitor.visit_u8 x)
      (fun b => BufferDeserializer.deserialize_u8 b u8Visitor) = .ok x)
  ∧ (∀ x : Nat, roundtrip (BufferVisitor.visit_u16 x)
      (fun b => BufferDeserializer.deserialize_u16 b u16Visitor) = .ok x)
  ∧ (∀ x : Nat, roundtrip (BufferVisitor.visit_u32 x)
      (fun b => BufferDeserializer.deserialize_u32 b u32Visitor) = .ok x)
  ∧ (∀ x : Nat, roundtrip (BufferVisitor.visit_u64 x)
      (fun b => BufferDeserializer.deserialize_u64 b u64Visitor) = .ok x)
  ∧ (∀ x : Nat, roundtrip (BufferVisitor.visit_u128 x)
      (fun b => BufferDeserializer.deserialize_u128 b u128Visitor) = .ok x)
  ∧ (∀ x : Int, roundtrip (BufferVisitor.visit_i8 x)
      (fun b => BufferDeserializer.deserialize_i8 b i8Visitor) = .ok x)
  ∧ (∀ x : Int, roundtrip (BufferVisitor.visit_i16 x)
      (fun b => BufferDeserializer.deserialize_i16 b i16Visitor) = .ok x)
  ∧ (∀ x : Int, roundtrip (BufferVisitor.visit_i32 x)
      (fun b => BufferDeserializer.deserialize_i32 b i32Visitor) = .ok x)
  ∧ (∀ x : Int, roundtrip (BufferVisitor.visit_i64 x)
      (fun b => BufferDeserializer.deserialize_i64 b i64Visitor) = .ok x)
  ∧ (∀ x : Int, roundtrip (BufferVisitor.visit_i128 x)
      (fun b => BufferDeserializer.deserialize_i128 b i128Visitor) = .ok x)
  ∧ (∀ x : Nat, roundtrip (BufferVisitor.visit_f32 x)
      (fun b => BufferDeserializer.deserialize_f32 b f32Visitor) = .ok x)
  ∧ (∀ x : Nat, roundtrip (BufferVisitor.visit_f64 x)
      (fun b => BufferDeserializer.deserialize_f64 b f64Visitor) = .ok x)
  ∧ (∀ x : Char, roundtrip (BufferVisitor.visit_char x)
      (fun b => BufferDeserializer.deserialize_char b charVisitor) = .ok x)
  ∧ (∀ s : String, roundtrip (BufferVisitor.visit_string s)
      (fun b => BufferDeserializer.deserialize_string b stringVisitor) = .ok s)
  ∧ (∀ s : String, roundtrip (BufferVisitor.visit_borrowed_str s)
      (fun b => BufferDeserializer.deserialize_str b stringVisitor) = .ok s)
  ∧ (∀ bs : List Nat, roundtrip (BufferVisitor.visit_byte_buf bs)
      (fun b => BufferDeserializer.deserialize_byte_buf b byteBufVisitor) = .ok bs)
  ∧ (∀ bs : List Nat, roundtrip (BufferVisitor.visit_borrowed_bytes bs)
      (fun b => BufferDeserializer.deserialize_bytes b byteBufVisitor) = .ok bs)
  ∧ (roundtrip BufferVisitor.visit_unit
      (fun b => BufferDeserializer.deserialize_unit b unitVisitor) = .ok ()) :=
  ⟨fun _ => rfl, fun _ => rfl, fun _ => rfl, fun _ => rfl, fun _ => rfl,
    fun _ => rfl, fun _ => rfl, fun _ => rfl, fun _ => rfl, fun _ => rfl,
    fun _ => rfl, fun _ => rfl, fun _ => rfl, fun _ => rfl, fun _ => rfl,
    fun _ => rfl, fun _ => rfl, fun _ => rfl, rfl⟩

/-- Claim C3: the owned adapter's optional target reports `None` as absent,
`Some(inner)` as present with the inner value, `Unit` as a present optional
with unit payload, and every other case as a present optional wrapping the
same value decoded directly. -/
theorem claim3_option_target {α : Type} (v : Visitor α) :
    (BufferDeserializer.deserialize_option .none v = v.visitNone)
  ∧ (∀ inner, BufferDeserializer.deserialize_option (.some inner) v
      = v.visitSome inner)
  ∧ (BufferDeserializer.deserialize_option .unit v = v.visitUnit)
  ∧ (∀ b, b.isOptionSpecial = false →
      BufferDeserializer.deserialize_option b v = v.visitSome b) := by
  refine ⟨rfl, fun inner => rfl, rfl, ?_⟩
  intro b hb
  cases b <;> first
    | rfl
    | simp [Buffer.isOptionSpecial] at hb

/-- Witness for C3 at a concrete non-`None`/`Some`/`Unit` input. -/
theorem claim3_option_target_witness :
    Buffer.isOptionSpecial (.bool true) = false
  ∧ BufferDeserializer.deserialize_option (.bool true)
      (Visitor.mk0 "t" : Visitor Unit)
      = (Visitor.mk0 "t" : Visitor Unit).visitSome (.bool true) :=
  ⟨rfl, (claim3_option_target (Visitor.mk0 "t" : Visitor Unit)).2.2.2
    (.bool true) rfl⟩

/-- Claim C4: the owned adapter's unit target succeeds exactly on `Unit` and
on an empty `Map`, failing with invalid-type otherwise; the borrowing
adapter's unit target succeeds only on `Unit`, failing with invalid-type on
everything else, the empty `Map` included. -/
theorem claim4_unit_target {α : Type} (v : Visitor α) :
    (BufferDeserializer.deserialize_unit .unit v = v.visitUnit)
  ∧ (BufferDeserializer.deserialize_unit (.map []) v = v.visitUnit)
  ∧ (∀ b, b.isUnitOrEmptyMap = false →
      BufferDeserializer.deserialize_unit b v
      = .error (.invalidType b.unexpected v.expecting))
  ∧ (BufferRefDeserializer.deserialize_unit .unit v = v.visitUnit)
  ∧ (∀ b, b.isUnitCase = false →
      BufferRefDeserializer.deserialize_unit b v
      = .error (.invalidType b.unexpected v.expecting)) := by
  refine ⟨rfl, rfl, ?_, rfl, ?_⟩
  · intro b hb
    cases b <;> try rfl
    case unit => simp [Buffer.isUnitOrEmptyMap] at hb
    case map entries =>
      cases entries with
      | nil => simp [Buffer.isUnitOrEmptyMap] at hb
      | cons e es => rfl
  · intro b hb
    cases b <;> first
      | rfl
      | simp [Buffer.isUnitCase] at hb

/-- Witness for C4: a boolean fails the owned unit target, and the empty map
fails the borrowing unit target. -/
theorem claim4_unit_target_witness :
    Buffer.isUnitOrEmptyMap (.bool true) = false
  ∧ BufferDeserializer.deserialize_unit (.bool true)
      (Visitor.mk0 "unit" : Visitor Unit)
      = .error (.invalidType (.bool true) "unit")
  ∧ Buffer.isUnitCase (.map []) = false
  ∧ BufferRefDeserializer.deserialize_unit (.map [])
      (Visitor.mk0 "unit" : Visitor Unit)
      = .error (.invalidType .map "unit") :=
  ⟨rfl,
    (claim4_unit_target (Visitor.mk0 "unit" : Visitor Unit)).2.2.1
      (.bool true) rfl,
    rfl,
    (claim4_unit_target (Visitor.mk0 "unit" : Visitor Unit)).2.2.2.2
      (.map []) rfl⟩

/-- Counterexample to claim C5 as stated: on the empty map, the borrowing
adapter's unit-struct target errors with invalid-type, while the owned
adapter accepts it as unit — the two adapters do not behave identically. -/
theorem claim5_counterexample :
    BufferRefDeserializer.deserialize_unit_struct "Info" (.map []) unitVisitor
      = .error (.invalidType .map "unit")
  ∧ BufferDeserializer.deserialize_unit_struct "Info" (.map []) unitVisitor
      = .ok ()
  ∧ BufferRefDeserializer.deserialize_unit_struct "Info" (.map []) unitVisitor
      ≠ BufferDeserializer.deserialize_unit_struct "Info" (.map []) unitVisitor :=
  ⟨rfl, rfl, fun h => nomatch h⟩

/-- Claim C5 (amended): the owned adapter's unit-struct target matches an
empty map or empty sequence directly as unit and otherwise falls through to
the generic any-shape dispatch; the borrowing adapter's unit-struct target
instead delegates to its unit target, so it accepts only an actual `Unit`
case and fails with an invalid-type error on everything else, empty map and
empty sequence included. -/
theorem claim5_unit_struct_dispatch {α : Type} (name : String)
    (v : Visitor α) :
    (BufferDeserializer.deserialize_unit_struct name (.map []) v = v.visitUnit)
  ∧ (BufferDeserializer.deserialize_unit_struct name (.seq []) v = v.visitUnit)
  ∧ (∀ b, b.isEmptyMapOrSeq = false →
      BufferDeserializer.deserialize_unit_struct name b v
      = BufferDeserializer.deserialize_any b v)
  ∧ (∀ b, BufferRefDeserializer.deserialize_unit_struct name b v
      = BufferRefDeserializer.deserialize_unit b v) := by
  refine ⟨rfl, rfl, ?_, fun b => rfl⟩
  intro b hb
  cases b <;> try rfl
  case seq elems =>
    cases elems with
    | nil => simp [Buffer.isEmptyMapOrSeq] at hb
    | cons e es => rfl
  case map entries =>
    cases entries with
    | nil => simp [Buffer.isEmptyMapOrSeq] at hb
    | cons e es => rfl

/-- Witness for the amended C5 at a bare enum-tag string (the case the
owned fall-through exists for). -/
theorem claim5_unit_struct_dispatch_witness :
    Buffer.isEmptyMapOrSeq (.string "Info") = false
  ∧ BufferDeserializer.deserialize_unit_struct "Info" (.string "Info")
      (Visitor.mk0 "t" : Visitor Unit)
      = BufferDeserializer.deserialize_any (.string "Info")
          (Visitor.mk0 "t" : Visitor Unit) :=
  ⟨rfl, (claim5_unit_struct_dispatch "Info" (Visitor.mk0 "t" : Visitor Unit)).2.2.1
    (.string "Info") rfl⟩

/-- Claim C6: the borrowing adapter never consumes the buffer: N or more
decode attempts can run against the same buffer value, and when every
attempt but the last fails, the trial still ends in the last attempt's
success — each attempt, the final one included, is applied to the original
unchanged buffer. -/
theorem claim6_multi_use {α : Type} (b : Buffer) (calls : List (RefCall α))
    (last : RefCall α) (res : α)
    (hne : calls ≠ [])
    (hfail : ∀ c ∈ calls, isErr (runRefCall c b) = true)
    (hok : runRefCall last b = .ok res) :
    tryCalls (calls ++ [last]) b = .ok res := by
  induction calls with
  | nil => exact absurd rfl hne
  | cons c rest ih =>
    have hc : isErr (runRefCall c b) = true :=
      hfail c (List.mem_cons_self c rest)
    cases hrc : runRefCall c b with
    | ok a =>
      rw [hrc] at hc
      exact absurd hc (by simp [isErr])
    | error e =>
      have hstep : tryCalls ((c :: rest) ++ [last]) b
          = tryCalls (rest ++ [last]) b := by
        simp [List.cons_append, tryCalls, hrc]
      rw [hstep]
      cases rest with
      | nil => simp [tryCalls, hok]
      | cons c2 rest2 =>
        exact ih (by simp)
          (fun d hd => hfail d (List.mem_cons_of_mem c hd))

/-- Witness for C6: three attempts against the same borrowed string buffer;
the boolean and sequence targets fail, the string target then succeeds on
the intact data. -/
theorem claim6_multi_use_witness :
    ([RefCall.bool (Visitor.mk0 "a boolean"),
      RefCall.seq (Visitor.mk0 "a sequence")] : List (RefCall String)) ≠ []
  ∧ (∀ c ∈ ([RefCall.bool (Visitor.mk0 "a boolean"),
      RefCall.seq (Visitor.mk0 "a sequence")] : List (RefCall String)),
      isErr (runRefCall c (.str "x")) = true)
  ∧ runRefCall (RefCall.str stringVisitor) (.str "x") = .ok "x"
  ∧ tryCalls ([RefCall.bool (Visitor.mk0 "a boolean"),
      RefCall.seq (Visitor.mk0 "a sequence")] ++ [RefCall.str stringVisitor])
      (.str "x") = .ok "x" := by
  have hfail : ∀ c ∈ ([RefCall.bool (Visitor.mk0 "a boolean"),
      RefCall.seq (Visitor.mk0 "a sequence")] : List (RefCall String)),
      isErr (runRefCall c (.str "x")) = true := by
    intro c hc
    cases hc with
    | head => rfl
    | tail _ h =>
      cases h with
      | head => rfl
      | tail _ h2 => cases h2
  exact ⟨List.cons_ne_nil _ _, hfail, rfl,
    claim6_multi_use (.str "x") _ (RefCall.str stringVisitor) "x"
      (List.cons_ne_nil _ _) hfail rfl⟩

/-- Claim C7: the builder's enum-shape handler fails with the same custom
descriptive error on every enum access and never yields a buffer. -/
theorem claim7_builder_rejects_enum :
    ∀ (β : Type) (access : β),
      (BufferVisitor.visit_enum access
        = .error (.custom
          "untagged and internally tagged enums do not support enum input"))
    ∧ (∀ buf : Buffer, BufferVisitor.visit_enum access ≠ .ok buf) :=
  fun _ _ => ⟨rfl, fun _ h => nomatch h⟩

/-- A sequence consumer of arity 2: drains two elements and reports how many
it consumed (used to exercise the length check). -/
def drain2Visitor : Visitor Nat :=
  { Visitor.mk0 "a tuple of size 2" with
    visitSeq := fun es => .ok (2, es.drop 2) }

/-- A sequence consumer of arity 3: drains three elements. -/
def drain3Visitor : Visitor Nat :=
  { Visitor.mk0 "a tuple of size 3" with
    visitSeq := fun es => .ok (3, es.drop 3) }

/-- Claim C8: replaying a non-empty `Seq` into a sequence/tuple target fails
with an invalid-length error when the consumer leaves elements undrained,
succeeds when the consumer drains them all, the tuple target is the
sequence target, and non-`Seq` cases fail with an invalid-type error. -/
theorem claim8_seq_length {α : Type} :
    (∀ (elems : List Buffer) (v : Visitor α) (a : α) (rest : List Buffer),
      elems ≠ [] → v.visitSeq elems = .ok (a, rest) → rest ≠ [] →
      BufferDeserializer.deserialize_seq (.seq elems) v
        = .error (.invalidLength elems.length "fewer elements in array"))
  ∧ (∀ (elems : List Buffer) (v : Visitor α) (a : α),
      v.visitSeq elems = .ok (a, []) →
      BufferDeserializer.deserialize_seq (.seq elems) v = .ok a)
  ∧ (∀ (len : Nat) (b : Buffer) (v : Visitor α),
      BufferDeserializer.deserialize_tuple len b v
        = BufferDeserializer.deserialize_seq b v)
  ∧ (∀ (b : Buffer) (v : Visitor α), b.isSeqCase = false →
      BufferDeserializer.deserialize_seq b v
        = .error (.invalidType b.unexpected v.expecting)) := by
  refine ⟨?_, ?_, fun len b v => rfl, ?_⟩
  · intro elems v a rest hne h hrest
    cases rest with
    | nil => exact absurd rfl hrest
    | cons r rs =>
      simp [BufferDeserializer.deserialize_seq, visit_buffer_seq, h]
  · intro elems v a h
    simp [BufferDeserializer.deserialize_seq, visit_buffer_seq, h]
  · intro b v hb
    cases b <;> first
      | rfl
      | simp [Buffer.isSeqCase] at hb

/-- Witness for C8: a three-element sequence fails an arity-2 consumer with
invalid length, succeeds with an arity-3 consumer, and a boolean fails the
sequence target with invalid type. -/
theorem claim8_seq_length_witness :
    ([Buffer.u8 1, Buffer.u8 2, Buffer.u8 3] : List Buffer) ≠ []
  ∧ drain2Visitor.visitSeq [Buffer.u8 1, Buffer.u8 2, Buffer.u8 3]
      = .ok (2, [Buffer.u8 3])
  ∧ ([Buffer.u8 3] : List Buffer) ≠ []
  ∧ BufferDeserializer.deserialize_seq
      (.seq [Buffer.u8 1, Buffer.u8 2, Buffer.u8 3]) drain2Visitor
      = .error (.invalidLength 3 "fewer elements in array")
  ∧ drain3Visitor.visitSeq [Buffer.u8 1, Buffer.u8 2, Buffer.u8 3]
      = .ok (3, [])
  ∧ BufferDeserializer.deserialize_seq
      (.seq [Buffer.u8 1, Buffer.u8 2, Buffer.u8 3]) drain3Visitor = .ok 3
  ∧ Buffer.isSeqCase (.bool true) = false
  ∧ BufferDeserializer.deserialize_seq (.bool true) drain2Visitor
      = .error (.invalidType (.bool true) "a tuple of size 2") :=
  ⟨List.cons_ne_nil _ _, rfl, List.cons_ne_nil _ _,
    claim8_seq_length.1 [Buffer.u8 1, Buffer.u8 2, Buffer.u8 3] drain2Visitor
      2 [Buffer.u8 3] (List.cons_ne_nil _ _) rfl (List.cons_ne_nil _ _),
    rfl,
    claim8_seq_length.2.1 [Buffer.u8 1, Buffer.u8 2, Buffer.u8 3]
      drain3Visitor 3 rfl,
    rfl,
    claim8_seq_length.2.2.2 (.bool true) drain2Visitor rfl⟩

/-- Claim C9: the builder preserves ownedness of pushed text and bytes: a
borrowed string push yields the borrowed `Str` case with the same text, an
owned string push yields the owned `String` case, a borrowed bytes push
yields the borrowed `Bytes` case with the same bytes, and an owned buffer
push yields the owned `ByteBuf` case. -/
theorem claim9_borrow_preservation :
    (∀ s : String, BufferVisitor.visit_borrowed_str s = .ok (.str s))
  ∧ (∀ s : String, BufferVisitor.visit_string s = .ok (.string s))
  ∧ (∀ bs : List Nat, BufferVisitor.visit_borrowed_bytes bs = .ok (.bytes bs))
  ∧ (∀ bs : List Nat, BufferVisitor.visit_byte_buf bs = .ok (.byteBuf bs)) :=
  ⟨fun _ => rfl, fun _ => rfl, fun _ => rfl, fun _ => rfl⟩

/-- Claim C10: for the char target in both adapters, a `Char` case forwards
the character, a `String` or `Str` case forwards the text to a string
callback, and every other case, bytes included, fails with an invalid-type
error. -/
theorem claim10_char_target {α : Type} (v : Visitor α) :
    (∀ c, BufferDeserializer.deserialize_char (.char c) v = v.visitChar c)
  ∧ (∀ s, BufferDeserializer.deserialize_char (.string s) v = v.visitString s)
  ∧ (∀ s, BufferDeserializer.deserialize_char (.str s) v = v.visitBorrowedStr s)
  ∧ (∀ b, b.isCharOrText = false →
      BufferDeserializer.deserialize_char b v
        = .error (.invalidType b.unexpected v.expecting))
  ∧ (∀ c, BufferRefDeserializer.deserialize_char (.char c) v = v.visitChar c)
  ∧ (∀ s, BufferRefDeserializer.deserialize_char (.string s) v = v.visitStr s)
  ∧ (∀ s, BufferRefDeserializer.deserialize_char (.str s) v
      = v.visitBorrowedStr s)
  ∧ (∀ b, b.isCharOrText = false →
      BufferRefDeserializer.deserialize_char b v
        = .error (.invalidType b.unexpected v.expecting)) := by
  refine ⟨fun c => rfl, fun s => rfl, fun s => rfl, ?_, fun c => rfl,
    fun s => rfl, fun s => rfl, ?_⟩
  · intro b hb
    cases b <;> first
      | rfl
      | simp [Buffer.isCharOrText] at hb
  · intro b hb
    cases b <;> first
      | rfl
      | simp [Buffer.isCharOrText] at hb

/-- Witness for C10 at a concrete bytes input on both adapters. -/
theorem claim10_char_target_witness :
    Buffer.isCharOrText (.bytes [104, 105]) = false
  ∧ BufferDeserializer.deserialize_char (.bytes [104, 105])
      (Visitor.mk0 "a character" : Visitor Char)
      = .error (.invalidType (.bytes [104, 105]) "a character")
  ∧ BufferRefDeserializer.deserialize_char (.bytes [104, 105])
      (Visitor.mk0 "a character" : Visitor Char)
      = .error (.invalidType (.bytes [104, 105]) "a character") :=
  ⟨rfl,
    (claim10_char_target (Visitor.mk0 "a character" : Visitor Char)).2.2.2.1
      (.bytes [104, 105]) rfl,
    (claim10_char_target (Visitor.mk0 "a character" : Visitor Char)).2.2.2.2.2.2.2
      (.bytes [104, 105]) rfl⟩
